import Mathlib

set_option maxRecDepth 100000

/-!
A shallow embedding of TPParser's `sop_parser.py`.

The Python module parses Standard Operating Procedure (SOP) documents:
it strips `<!-- ... -->` comments, splits the text on blank-line runs into
a preamble and blocks, parses each block according to its typed header,
and extracts file references from process-block subsections.

Python strings are modelled as Lean `String` (a wrapper around `List Char`),
Python dicts as insertion-ordered association lists with last-write-wins
update, and Python exceptions as an explicit `PyError` sum carried in
`Except`.  Mutable block-parsing locals (`attributes`, `subsections`,
`cur_subsec`, `target`, `cur_key`) become an explicit state record
threaded through a step function; Python's aliasing of `target` into either
the block's or a subsection's attribute dict is modelled by an address
(`Target`), and an *unbound* local (Python would raise
`UnboundLocalError`) is modelled as `none`.
-/

namespace SOP

/-- The exception kinds the Python code paths can raise:
`ParseException` (the module's own class), `ValueError` (bad call
arguments, tuple-unpack failures, bad dict-constructor elements),
`UnboundLocalError` (reading the uninitialized locals `target`/`cur_key`),
and `IndexError` (`blocks[0]` / `lines[0]` on an empty list). -/
inductive PyError where
  | parseExc (msg : String)
  | valueError (msg : String)
  | unboundLocal
  | indexError

/-- The characters Python's `str.strip()` removes. -/
def isPyWs (c : Char) : Bool :=
  c == ' ' || c == '\t' || c == '\n' || c == '\r' || c == '\x0b' || c == '\x0c'

/-- Character set of Python's `strip('# ')`. -/
def isHashSpace (c : Char) : Bool :=
  c == '#' || c == ' '

/-- Character set of Python's `strip('- ')`. -/
def isDashSpace (c : Char) : Bool :=
  c == '-' || c == ' '

/-- Python `str.strip(chars)` on char lists: drop characters satisfying `p`
from both ends. -/
def stripList (p : Char → Bool) (l : List Char) : List Char :=
  ((l.dropWhile p).reverse.dropWhile p).reverse

/-- Python `s.strip()`. -/
def pyStrip (s : String) : String :=
  String.mk (stripList isPyWs s.data)

/-- Python `s.strip('# ')`, used on both pieces of every preamble line. -/
def stripHashSpace (s : String) : String :=
  String.mk (stripList isHashSpace s.data)

/-- Python `s.startswith(pat)` on char lists (second argument is the
pattern). -/
def startsWithL : List Char → List Char → Bool
  | _, [] => true
  | [], _ :: _ => false
  | c :: cs, p :: ps => if p = c then startsWithL cs ps else false

/-- Python `s.startswith(pat)`. -/
def strStarts (s pat : String) : Bool :=
  startsWithL s.data pat.data

/-- Literal "ends with" on char lists (used only to state that the
file-list regex differs from a literal suffix check). -/
def endsWithL (s suf : List Char) : Bool :=
  startsWithL s.reverse suf.reverse

/-- Split at the first occurrence of `sep`: returns the piece before it
and, when `sep` occurs, the piece after it. -/
def splitFirstList (sep : Char) : List Char → List Char × Option (List Char)
  | [] => ([], none)
  | c :: cs =>
    if c = sep then ([], some cs)
    else
      match splitFirstList sep cs with
      | (a, rest) => (c :: a, rest)

/-- Python `s.split(sep, 1)`: one or two pieces. -/
def pySplit1 (sep : Char) (s : String) : List String :=
  match splitFirstList sep s.data with
  | (_, none) => [s]
  | (a, some b) => [String.mk a, String.mk b]

/-- Python `s.split(sep, maxsplit)` on char lists: at most `maxsplit`
splits, hence up to `maxsplit + 1` pieces. -/
def splitMaxList (sep : Char) : Nat → List Char → List (List Char)
  | 0, l => [l]
  | n + 1, l =>
    match splitFirstList sep l with
    | (_, none) => [l]
    | (a, some b) => a :: splitMaxList sep n b

/-- Prepend a character onto the first piece of a split result. -/
def consHead (c : Char) : List (List Char) → List (List Char)
  | [] => [[c]]
  | h :: t => (c :: h) :: t

/-- Python `re.split(r'\r?\n', s)` on char lists; a lone `'\r'` is ordinary
text, `"\r\n"` and `"\n"` are separators. -/
def splitNlList : List Char → List (List Char)
  | [] => [[]]
  | '\n' :: cs => [] :: splitNlList cs
  | '\r' :: '\n' :: cs => [] :: splitNlList cs
  | c :: cs => consHead c (splitNlList cs)

/-- Python `re.split(r'\r?\n', s)`. -/
def splitNlStr (s : String) : List String :=
  (splitNlList s.data).map String.mk

/-- Python `sep.join(xs)` on char lists. -/
def joinList (sep : List Char) : List (List Char) → List Char
  | [] => []
  | [x] => x
  | x :: y :: ys => x ++ sep ++ joinList sep (y :: ys)

/-- Python `sep.join(xs)`. -/
def pyJoin (sep : String) (xs : List String) : String :=
  String.mk (joinList sep.data (xs.map String.data))

/-- `os.linesep`, the value on the POSIX platforms the tool targets. -/
def os_linesep : String := "\n"

/-- First occurrence of the pattern `pat` inside a char list: returns the
text before the occurrence and the text after it, or `none` when `pat`
does not occur. -/
def splitAtSub (pat : List Char) : List Char → Option (List Char × List Char)
  | [] => if startsWithL [] pat then some ([], []) else none
  | c :: cs =>
    if startsWithL (c :: cs) pat then some ([], (c :: cs).drop pat.length)
    else
      match splitAtSub pat cs with
      | none => none
      | some (a, b) => some (c :: a, b)

/-- Python `re.sub(r'<!--.*?-->', '', text, flags=re.S)`: repeatedly remove
the span from the first `<!--` to the nearest following `-->`; a `<!--`
with no closing `-->` after it is left untouched.  The fuel argument only
bounds the recursion; every successful removal consumes at least seven
characters, so `stripCommentsList` supplies enough fuel for the recursion
never to bottom out. -/
def stripCommentsFuel : Nat → List Char → List Char
  | 0, l => l
  | fuel + 1, l =>
    match splitAtSub ['<', '!', '-', '-'] l with
    | none => l
    | some (a, b) =>
      match splitAtSub ['-', '-', '>'] b with
      | none => l
      | some (_, b2) => a ++ stripCommentsFuel fuel b2

/-- Comment stripping with adequate fuel. -/
def stripCommentsList (l : List Char) : List Char :=
  stripCommentsFuel l.length l

/-- One `\r?\n` unit of the block-separator pattern. -/
def takeNlUnit : List Char → Option (List Char)
  | '\r' :: '\n' :: rest => some rest
  | '\n' :: rest => some rest
  | _ => none

/-- Greedily consume `\r?\n` units (the `+` of the separator pattern). -/
def consumeNlUnits : List Char → List Char
  | '\r' :: '\n' :: rest => consumeNlUnits rest
  | '\n' :: rest => consumeNlUnits rest
  | l => l

/-- Python `re.split(r'(\r?\n)(\r?\n)+', text)` on char lists, keeping only
the segments between matches.  (Python also interleaves the two captured
`\r?\n` groups into the result; those pieces are whitespace-only and the
caller filters every whitespace-only entry away, so they are omitted
here.)  Each recursion step consumes at least one character, so fuel equal
to the length gives the exact semantics. -/
def splitBlocksFuel : Nat → List Char → List (List Char)
  | 0, l => [l]
  | fuel + 1, l =>
    match l with
    | [] => [[]]
    | c :: cs =>
      match takeNlUnit (c :: cs) with
      | some r1 =>
        match takeNlUnit r1 with
        | some _ => [] :: splitBlocksFuel fuel (consumeNlUnits r1)
        | none => consHead c (splitBlocksFuel fuel cs)
      | none => consHead c (splitBlocksFuel fuel cs)

/-- Block splitting on blank-line runs. -/
def splitBlocksStr (s : String) : List String :=
  (splitBlocksFuel s.data.length s.data).map String.mk

/-- A Python dict (string keys and values): insertion-ordered association
list, updates are last-write-wins in place. -/
abbrev AttrMap := List (String × String)

/-- `m[k] = v`: replace the value at the first occurrence of `k`, keeping
its position, or append the new pair. -/
def attrSet : AttrMap → String → String → AttrMap
  | [], k, v => [(k, v)]
  | (k0, v0) :: rest, k, v =>
    if k0 = k then (k, v) :: rest else (k0, v0) :: attrSet rest k v

/-- `m.get(k, d)` (also the read half of `defaultdict(str)` with `d = ""`). -/
def attrGetD (m : AttrMap) (k d : String) : String :=
  match m.find? (fun p => p.1 == k) with
  | some p => p.2
  | none => d

/-- `k in m`. -/
def attrHas (m : AttrMap) (k : String) : Bool :=
  (m.find? (fun p => p.1 == k)).isSome

/-- One version-history record: `{version, date, description}`. -/
structure HistoryEntry where
  version : String
  date : String
  description : String

/-- `format_history(hist_line)`: strip `'-'`/`' '` characters from both
ends, split on `';'` with `maxsplit=3` (note: the Python call is
`split(';', 3)`, which produces up to *four* pieces), and demand exactly
three pieces. -/
def format_history (hist_line : String) : Except PyError HistoryEntry :=
  match splitMaxList ';' 3 (stripList isDashSpace hist_line.data) with
  | [a, b, c] => Except.ok ⟨String.mk a, String.mk b, String.mk c⟩
  | parts =>
    Except.error (PyError.parseExc
      ("expected 3 version history parts, but got " ++ toString parts.length
        ++ " (text: \"" ++ hist_line ++ "\")"))

/-- A parsed subsection: `{'name': ..., 'attributes': defaultdict(str)}`. -/
structure Subsec where
  name : String
  attributes : AttrMap

/-- The dict the local `target` aliases: the block's own attribute dict or
the attribute dict of the subsection at a given position of the
subsection list. -/
inductive Target where
  | blockAttrs
  | subIdx (i : Nat)

/-- The mutable locals of the process-block loop.  `target` and `cur_key`
start *unbound* in the Python source (only `cur_subsec` and the unused
`cur_attr` are initialized to `None`); `none` models the unbound state,
whose read raises `UnboundLocalError`. -/
structure PBState where
  attributes : AttrMap
  subsections : List Subsec
  cur_subsec : Option Nat
  target : Option Target
  cur_key : Option String

/-- State at loop entry. -/
def initPBState : PBState :=
  ⟨[], [], none, none, none⟩

/-- In-place update of the subsection at index `i`. -/
def listModify : List Subsec → Nat → (Subsec → Subsec) → List Subsec
  | [], _, _ => []
  | x :: xs, 0, f => f x :: xs
  | x :: xs, n + 1, f => x :: listModify xs n f

/-- Read the dict `target` points at. -/
def targetAttrs (st : PBState) (t : Target) : AttrMap :=
  match t with
  | Target.blockAttrs => st.attributes
  | Target.subIdx i => ((st.subsections.get? i).map Subsec.attributes).getD []

/-- Write `key ↦ v` through the `target` alias. -/
def setInTarget (st : PBState) (t : Target) (k v : String) : PBState :=
  match t with
  | Target.blockAttrs => { st with attributes := attrSet st.attributes k v }
  | Target.subIdx i =>
    { st with
      subsections := listModify st.subsections i
        (fun sb => ⟨sb.name, attrSet sb.attributes k v⟩) }

/-- One iteration of the process-block body loop (`for line in lines[1:]`).
Mirrors the three-way branch of the source: attribute line, subsection
header, continuation line. -/
def processLine (block_type block_name : String) (st : PBState) (line : String) :
    Except PyError PBState :=
  if strStarts line ("- ") then
    -- `key, val = line.split(':', 1)` raises ValueError when no colon exists
    match splitFirstList ':' line.data with
    | (_, none) =>
      Except.error (PyError.valueError
        ("not enough values to unpack (expected 2, got 1)"))
    | (keyRaw, some valRaw) =>
      let key := pyStrip (String.mk (keyRaw.drop 2))
      let t : Target :=
        match st.cur_subsec with
        | some i => Target.subIdx i
        | none => Target.blockAttrs
      Except.ok (setInTarget { st with target := some t, cur_key := some key }
        t key (pyStrip (String.mk valRaw)))
  else if strStarts line ("## ") then
    Except.ok
      (if !(strStarts line ("## Not uploaded:")) then
        { st with
          subsections :=
            st.subsections ++ [⟨pyStrip (String.mk (line.data.drop 3)), []⟩],
          cur_subsec := some st.subsections.length }
      else st)
  else
    -- `if target and cur_key:` with Python truthiness: an unbound local
    -- raises, a bound empty dict or empty key falls to the ParseException.
    match st.target with
    | none => Except.error PyError.unboundLocal
    | some t =>
      if targetAttrs st t ≠ [] then
        match st.cur_key with
        | none => Except.error PyError.unboundLocal
        | some k =>
          if k ≠ "" then
            let old := attrGetD (targetAttrs st t) k ""
            Except.ok (setInTarget st t k
              (old ++ (if old ≠ "" then os_linesep else "") ++ pyStrip line))
          else
            Except.error (PyError.parseExc
              ("In \"" ++ block_type ++ ": " ++ block_name
                ++ "\", encounted unparseable line: " ++ line))
      else
        Except.error (PyError.parseExc
          ("In \"" ++ block_type ++ ": " ++ block_name
            ++ "\", encounted unparseable line: " ++ line))

/-- Run the process-block loop over the body lines. -/
def runProcess (block_type block_name : String) :
    PBState → List String → Except PyError PBState
  | st, [] => Except.ok st
  | st, l :: ls =>
    match processLine block_type block_name st l with
    | Except.error e => Except.error e
    | Except.ok st2 => runProcess block_type block_name st2 ls

/-- Python `re.match(r'.*_files.txt$', name)`: the dot before `txt` is an
*unescaped* regex dot matching any non-newline character; `.*` likewise
excludes newlines.  The pattern after `.*` is exactly ten characters, so a
match exists iff the last ten characters fit `_files␣txt` with an
arbitrary non-newline character in the gap and no newline occurs earlier.
(Subsection names are produced by `str.strip()` of a newline-free line,
so the `$`-before-trailing-newline subtlety of Python cannot arise.) -/
def matchesFileList (name : String) : Bool :=
  let l := name.data
  if l.length < 10 then false
  else
    (l.take (l.length - 10)).all (fun c => c != '\n') &&
    ((l.drop (l.length - 10)).take 6 == ('_' :: ['f', 'i', 'l', 'e', 's'])) &&
    (match (l.drop (l.length - 10)).drop 6 with
     | c :: rest => (c != '\n') && (rest == ['t', 'x', 't'])
     | [] => false)

/-- Post-parse validation of the subsection list: the first subsection with
`Type == "file list"` whose name fails the (buggy) regex produces the
ParseException. -/
def checkSubsecs (block_type block_name : String) : List Subsec → Option PyError
  | [] => none
  | sb :: rest =>
    if attrHas sb.attributes ("Type")
        && (attrGetD sb.attributes ("Type") ("") == "file list")
        && !(matchesFileList sb.name) then
      some (PyError.parseExc
        ("In \"" ++ block_type ++ ": " ++ block_name
          ++ "\", encountered entry with type \x27file list\x27 and expected the file to end in \x27_files.txt\x27, but found \x27"
          ++ sb.name ++ "\x27 instead"))
    else checkSubsecs block_type block_name rest

/-- The parsed-block structure returned by `parse_block` (a tagged union
mirroring the three dict shapes of the source). -/
inductive Block where
  | freeText (btype : String) (text : String)
  | process (btype : String) (name : String) (attributes : AttrMap)
      (items : List Subsec)
  | history (btype : String) (items : List HistoryEntry)

/-- `re.match(r'^# (?P<type>[^:]+):(?P<name>.*)$', line)`: a `"# "` marker,
then one or more non-colon characters (the type), a colon, and the rest
(the name). -/
def matchHeader (l : List Char) : Option (List Char × List Char) :=
  match l with
  | '#' :: ' ' :: rest =>
    (match splitFirstList ':' rest with
     | (tpart, some npart) => if tpart = [] then none else some (tpart, npart)
     | (_, none) => none)
  | _ => none

/-- `[format_history(x) for x in lines[1:]]` with the first exception
aborting the comprehension. -/
def histItems : List String → Except PyError (List HistoryEntry)
  | [] => Except.ok []
  | l :: ls =>
    match format_history l with
    | Except.error e => Except.error e
    | Except.ok h =>
      match histItems ls with
      | Except.error e => Except.error e
      | Except.ok hs => Except.ok (h :: hs)

/-- Block types that can contain subsections. -/
def PROCESS_BLOCKS : List String := ["Analysis", "Quality control"]

/-- `parse_block` after its line split: header match and dispatch on the
trimmed block type. -/
def parse_block_lines : List String → Except PyError Block
  | [] => Except.error PyError.indexError
  | line0 :: rest =>
    match matchHeader line0.data with
    | none =>
      Except.error (PyError.parseExc
        ("Header line \x27" ++ line0
          ++ "\x27 did not match expected format \x27# <type>: <name>\x27"))
    | some (traw, nraw) =>
      let block_type := pyStrip (String.mk traw)
      let block_name := pyStrip (String.mk nraw)
      if block_type = "Introduction" ∨ block_type = "Literature" then
        Except.ok (Block.freeText block_type (pyJoin os_linesep rest))
      else if block_type ∈ PROCESS_BLOCKS then
        match runProcess block_type block_name initPBState rest with
        | Except.error e => Except.error e
        | Except.ok st =>
          match checkSubsecs block_type block_name st.subsections with
          | some e => Except.error e
          | none =>
            Except.ok (Block.process block_type block_name st.attributes
              st.subsections)
      else if block_type = "History" then
        match histItems rest with
        | Except.ok items => Except.ok (Block.history block_type items)
        | Except.error (PyError.parseExc m) =>
          Except.error (PyError.parseExc
            ("In \"" ++ block_type ++ "\" block, " ++ m))
        | Except.error e => Except.error e
      else
        Except.error (PyError.parseExc
          ("Encountered unrecognized block type \x27" ++ block_type ++ "\x27"))

/-- `parse_block(block_str)`: split into lines, drop the whitespace-only
ones, then parse. -/
def parse_block (block_str : String) : Except PyError Block :=
  parse_block_lines ((splitNlStr block_str).filter (fun x => pyStrip x != ""))

/-- The two strip-`'# '`-ed pieces of one preamble line (the generator
`(bit.strip('# ') for bit in line.split(':', 1))`). -/
def preambleBits (line : String) : List String :=
  (pySplit1 ':' line).map stripHashSpace

/-- `dict(...)` over the per-line generators: two pieces make an entry
(last write wins), a single piece makes `dict()` raise ValueError. -/
def preambleFold : AttrMap → List String → Except PyError AttrMap
  | m, [] => Except.ok m
  | m, l :: ls =>
    match preambleBits l with
    | [k, v] => preambleFold (attrSet m k v) ls
    | _ =>
      Except.error (PyError.valueError
        ("dictionary update sequence element has length 1; 2 is required"))

/-- The structure returned by `parse_sop`: `{'meta': ..., 'blocks': [...]}`. -/
structure SopStruct where
  meta : AttrMap
  blocks : List Block

/-- `[parse_block(b) for b in blocks[1:]]`, first exception aborting. -/
def mapBlocks : List String → Except PyError (List Block)
  | [] => Except.ok []
  | b :: bs =>
    match parse_block b with
    | Except.error e => Except.error e
    | Except.ok blk =>
      match mapBlocks bs with
      | Except.error e => Except.error e
      | Except.ok blks => Except.ok (blk :: blks)

/-- The text-processing body of `parse_sop`: strip comments, split into
blank-line-delimited segments, drop whitespace-only segments, parse the
preamble (`blocks[0]`, an IndexError when none exists), then the blocks. -/
def parse_sop_text (fulltext : String) : Except PyError SopStruct :=
  let stripped := String.mk (stripCommentsList fulltext.data)
  match (splitBlocksStr stripped).filter (fun x => pyStrip x != "") with
  | [] => Except.error PyError.indexError
  | b0 :: rest =>
    match preambleFold [] (splitNlStr b0) with
    | Except.error e => Except.error e
    | Except.ok meta =>
      match mapBlocks rest with
      | Except.error e => Except.error e
      | Except.ok blks => Except.ok ⟨meta, blks⟩

/-- Python truthiness of an optional string (an absent argument is `None`,
falsy; an empty string is also falsy). -/
def pyTruthy : Option String → Bool
  | none => false
  | some s => s != ""

/-- `parse_sop(fp, filename)`.  `fp` is modelled by the text the handle
would yield (file objects are always truthy), `filename` by an optional
path string, and the filesystem by `readFile`.  The branch structure is
the source's: `if fp and not filename`, `elif filename and fp` (note:
*and*, not *and not*), `else raise ValueError`. -/
def parse_sop (fp : Option String) (filename : Option String)
    (readFile : String → String) : Except PyError SopStruct :=
  if fp.isSome && !(pyTruthy filename) then
    parse_sop_text (fp.getD (""))
  else if pyTruthy filename && fp.isSome then
    parse_sop_text (readFile (filename.getD ("")))
  else
    Except.error (PyError.valueError
      ("Either fp or filename must be specified, but not both"))

/-- One extracted file reference. -/
structure FileRef where
  name : String
  location : String
  format : String

/-- The per-block contribution to `extract_filenames`: process blocks
yield one record per subsection. -/
def blockRefs : Block → List FileRef
  | Block.process btype _ _ items =>
    if btype ∈ PROCESS_BLOCKS then
      items.map (fun sb =>
        ⟨sb.name, attrGetD sb.attributes ("Location") ("."),
          attrGetD sb.attributes ("Format") ("")⟩)
    else []
  | _ => []

/-- `extract_filenames` on already-read text: full parse, then the
flattened per-block reference lists in document order. -/
def extract_filenames_text (fulltext : String) : Except PyError (List FileRef) :=
  match parse_sop_text fulltext with
  | Except.error e => Except.error e
  | Except.ok s => Except.ok ((s.blocks.map blockRefs).flatten)

/-- `extract_filenames(fp, filename)` with the same calling convention as
`parse_sop`. -/
def extract_filenames (fp : Option String) (filename : Option String)
    (readFile : String → String) : Except PyError (List FileRef) :=
  match parse_sop fp filename readFile with
  | Except.error e => Except.error e
  | Except.ok s => Except.ok ((s.blocks.map blockRefs).flatten)

/-- A one-document filesystem used to exercise the call contract of
`parse_sop`: every path holds a minimal valid SOP text. -/
def demoFS : String → String :=
  fun _ => "# Title: T"

/-! ### Auxiliary lemmas -/

/-- Rebuilding a string from its character list is the identity. -/
theorem string_mk_data (s : String) : String.mk s.data = s := by
  cases s
  rfl

/-- String append is list append on the character lists. -/
theorem string_data_append (a b : String) : (a ++ b).data = a.data ++ b.data := rfl

/-- `startsWithL` is transitive through an intermediate pattern. -/
theorem startsWithL_trans (a : List Char) :
    ∀ b l, startsWithL b a = true → startsWithL l b = true →
      startsWithL l a = true := by
  induction a with
  | nil =>
    intro b l _ _
    cases l <;> rfl
  | cons p ps ih =>
    intro b l h1 h2
    cases b with
    | nil => simp [startsWithL] at h1
    | cons x xs =>
      cases l with
      | nil => simp [startsWithL] at h2
      | cons y ys =>
        by_cases hpx : p = x
        · subst hpx
          by_cases hxy : p = y
          · subst hxy
            simp only [startsWithL, if_pos rfl] at h1 h2 ⊢
            exact ih xs ys h1 h2
          · simp [startsWithL, hxy] at h2
        · simp [startsWithL, hpx] at h1

/-- A list starting with the pattern `c :: p` has head `c`. -/
theorem startsWithL_first (l p : List Char) (c : Char)
    (h : startsWithL l (c :: p) = true) : l.head? = some c := by
  cases l with
  | nil => simp [startsWithL] at h
  | cons y ys =>
    by_cases hc : c = y
    · simp [hc]
    · simp [startsWithL, hc] at h

/-- Splitting at the first separator, when the prefix is separator-free. -/
theorem splitFirstList_append (sep : Char) (l r : List Char)
    (h : ∀ c ∈ l, c ≠ sep) :
    splitFirstList sep (l ++ sep :: r) = (l, some r) := by
  induction l with
  | nil => simp [splitFirstList]
  | cons c cs ih =>
    have hc : c ≠ sep := h c (by simp)
    have ih2 := ih (fun a ha => h a (by simp [ha]))
    simp [splitFirstList, hc, ih2]

/-- `stripList` only removes characters satisfying `p`, and only from the
two ends. -/
theorem stripList_decomp (p : Char → Bool) (l : List Char) :
    ∃ a b, l = a ++ stripList p l ++ b ∧
      (∀ c ∈ a, p c = true) ∧ (∀ c ∈ b, p c = true) := by
  refine ⟨l.takeWhile p, ((l.dropWhile p).reverse.takeWhile p).reverse, ?_, ?_, ?_⟩
  · conv_lhs => rw [← List.takeWhile_append_dropWhile (p := p) (l := l)]
    rw [List.append_assoc]
    congr 1
    conv_lhs => rw [← List.reverse_reverse (l.dropWhile p),
      ← List.takeWhile_append_dropWhile (p := p) (l := (l.dropWhile p).reverse)]
    rw [List.reverse_append]
    rfl
  · intro c hc
    exact List.mem_takeWhile_imp hc
  · intro c hc
    rw [List.mem_reverse] at hc
    exact List.mem_takeWhile_imp hc

/-- The `strip('# ')` character class, read back as a proposition. -/
theorem isHashSpace_iff (c : Char) :
    isHashSpace c = true ↔ (c = '#' ∨ c = ' ') := by
  simp [isHashSpace]

/-- A newline-free, CR-free char list is one single line. -/
theorem splitNlList_clean (x : List Char)
    (hx : ∀ c ∈ x, ¬(c = '\n') ∧ ¬(c = '\r')) :
    splitNlList x = [x] := by
  induction x with
  | nil => rfl
  | cons c cs ih =>
    have hc := hx c (by simp)
    have ihr := ih (fun a ha => hx a (by simp [ha]))
    simp [splitNlList, hc.1, hc.2, ihr, consHead]

/-- Splitting after a clean line followed by a sole `'\n'` separator. -/
theorem splitNlList_append_nl (x r : List Char)
    (hx : ∀ c ∈ x, ¬(c = '\n') ∧ ¬(c = '\r')) :
    splitNlList (x ++ '\n' :: r) = x :: splitNlList r := by
  induction x with
  | nil => rfl
  | cons c cs ih =>
    have hc := hx c (by simp)
    have ihr := ih (fun a ha => hx a (by simp [ha]))
    simp only [List.cons_append]
    simp [splitNlList, hc.1, hc.2, ihr, consHead]

/-- Splitting on `'\n'` inverts joining with `'\n'` for clean lines. -/
theorem splitNlList_join (x : List Char) (xs : List (List Char))
    (hx : ∀ c ∈ x, ¬(c = '\n') ∧ ¬(c = '\r'))
    (hxs : ∀ l ∈ xs, ∀ c ∈ l, ¬(c = '\n') ∧ ¬(c = '\r')) :
    splitNlList (joinList ['\n'] (x :: xs)) = x :: xs := by
  induction xs generalizing x with
  | nil => exact splitNlList_clean x hx
  | cons y ys ih =>
    have hy : ∀ c ∈ y, ¬(c = '\n') ∧ ¬(c = '\r') := hxs y (by simp)
    have hys : ∀ l ∈ ys, ∀ c ∈ l, ¬(c = '\n') ∧ ¬(c = '\r') :=
      fun l hl => hxs l (by simp [hl])
    have hjoin : joinList ['\n'] (x :: y :: ys) =
        x ++ '\n' :: joinList ['\n'] (y :: ys) := by
      simp [joinList]
    rw [hjoin, splitNlList_append_nl x _ hx, ih y hy hys]

/-- String-level split/join inversion for clean lines. -/
theorem splitNlStr_join (x : String) (xs : List String)
    (hx : ∀ c ∈ x.data, ¬(c = '\n') ∧ ¬(c = '\r'))
    (hxs : ∀ l ∈ xs, ∀ c ∈ l.data, ¬(c = '\n') ∧ ¬(c = '\r')) :
    splitNlStr (pyJoin ("\n") (x :: xs)) = x :: xs := by
  unfold splitNlStr pyJoin
  have hdata : (String.mk (joinList (("\n" : String).data)
      ((x :: xs).map String.data))).data =
      joinList ['\n'] (x.data :: xs.map String.data) := rfl
  rw [hdata, splitNlList_join x.data (xs.map String.data) hx ?hclean]
  case hclean =>
    intro l hl
    rw [List.mem_map] at hl
    obtain ⟨w, hw, rfl⟩ := hl
    exact hxs w hw
  have hcomp : String.mk ∘ String.data = id := funext string_mk_data
  simp [hcomp]

/-! ### Claim theorems -/

/-- C1: the claim requires that supplying exactly one of the handle and the
path parses the document, while supplying both or neither raises the
invalid-argument error.  The source's dispatch reads
`if fp and not filename: ... elif filename and fp: ...` — the second
condition should be `filename and not fp` — so supplying only a filename
falls through to the ValueError branch while supplying both silently opens
and parses the named file, contradicting the code's own error message
"Either fp or filename must be specified, but not both".  The theorem
evaluates both divergent cases of the argument dispatch. -/
theorem parse_sop_argument_dispatch_bug :
    parse_sop none (some ("doc.md")) demoFS =
      Except.error (PyError.valueError
        ("Either fp or filename must be specified, but not both"))
    ∧ parse_sop (some ("# Title: T")) (some ("doc.md")) demoFS =
      Except.ok ⟨[("Title", "T")], []⟩ :=
  ⟨rfl, rfl⟩

/-- C2 counterexample: in the process block below an attribute `Key` is
declared, a subsection `Sub` is then opened, and the very next line is a
continuation line.  The claim predicts a ParseError naming the block and
the line; the code instead appends the line to the earlier attribute `Key`
of the block-level dict and succeeds, because the subsection header leaves
the locals `target` and `cur_key` untouched. -/
theorem subsection_keeps_current_attribute_cex :
    parse_block ("# Analysis: A\n- Key: v\n## Sub\nmore text") =
      Except.ok (Block.process ("Analysis") ("A") [("Key", "v\nmore text")]
        [⟨"Sub", []⟩]) :=
  rfl

/-- C2 (amended): opening a new subsection with a `## ` header leaves the
current-attribute pointer and the current target unchanged, so a
continuation line between a subsection header and that subsection's first
attribute line is never rejected *for being in a fresh subsection*: its
outcome depends only on the untouched `target`/`cur_key` state.  When the
most recently declared attribute key is non-empty, the line is appended to
that attribute of the previously current target, separated by a line break
if the existing value is non-empty.  A continuation line fails only for
reasons independent of the subsection header: when no attribute line has
occurred earlier in the block, `target` is still unbound and reading it
raises an unbound-local error, not a ParseError; when `target` is bound
but its dict is empty, or the most recent attribute line had an empty key,
the falsy `target and cur_key` test yields the ParseException naming the
block type, name and line. -/
theorem subsection_keeps_current_attribute :
    (∀ bt bn : String, ∀ st : PBState, ∀ line : String,
      strStarts line ("## ") = true →
      ∀ st' : PBState, processLine bt bn st line = Except.ok st' →
        st'.target = st.target ∧ st'.cur_key = st.cur_key)
    ∧ (∀ bt bn : String, ∀ st : PBState, ∀ line : String,
        strStarts line ("- ") = false → strStarts line ("## ") = false →
        st.target = none →
        processLine bt bn st line = Except.error PyError.unboundLocal)
    ∧ (∀ bt bn : String, ∀ st : PBState, ∀ line : String, ∀ t : Target,
        ∀ k : String,
        strStarts line ("- ") = false → strStarts line ("## ") = false →
        st.target = some t → st.cur_key = some k →
        targetAttrs st t ≠ [] → k ≠ "" →
        processLine bt bn st line = Except.ok (setInTarget st t k
          (attrGetD (targetAttrs st t) k ("") ++
            (if attrGetD (targetAttrs st t) k ("") ≠ "" then os_linesep else "")
            ++ pyStrip line)))
    ∧ (∀ bt bn : String, ∀ st : PBState, ∀ line : String, ∀ t : Target,
        strStarts line ("- ") = false → strStarts line ("## ") = false →
        st.target = some t →
        (targetAttrs st t = [] ∨ st.cur_key = some ("")) →
        processLine bt bn st line = Except.error (PyError.parseExc
          ("In \"" ++ bt ++ ": " ++ bn ++ "\", encounted unparseable line: "
            ++ line))) := by
  refine ⟨?_, ?_, ?_, ?_⟩
  · intro bt bn st line h st' hps
    have hd : strStarts line ("- ") = false := by
      have hh := startsWithL_first line.data (("# ").data) '#' h
      cases hdq : strStarts line ("- ") with
      | false => rfl
      | true =>
        have h2 := startsWithL_first line.data ((" ").data) '-' hdq
        rw [hh] at h2
        simp at h2
    by_cases hnu : strStarts line ("## Not uploaded:") = true
    · simp only [processLine, hd, h, hnu] at hps
      simp at hps
      cases hps
      exact ⟨rfl, rfl⟩
    · have hnu2 : strStarts line ("## Not uploaded:") = false := by
        cases hq : strStarts line ("## Not uploaded:") with
        | false => rfl
        | true => exact absurd hq hnu
      simp only [processLine, hd, h, hnu2] at hps
      simp at hps
      cases hps
      exact ⟨rfl, rfl⟩
  · intro bt bn st line hd hs ht
    simp [processLine, hd, hs, ht]
  · intro bt bn st line t k hd hs ht hck hta hk
    simp [processLine, hd, hs, ht, hck, hta, hk]
  · intro bt bn st line t hd hs ht hcase
    rcases hcase with hta | hck
    · simp [processLine, hd, hs, ht, hta]
    · by_cases hta : targetAttrs st t = []
      · simp [processLine, hd, hs, ht, hta]
      · simp [processLine, hd, hs, ht, hta, hck]

/-- C2 witness: exercising the amended statement on concrete states: a
continuation line at loop entry (no prior attribute) raises the
unbound-local error; after an attribute `Key ↦ v` a continuation right
after a subsection header appends to `Key` of the block attributes; after
an empty-key attribute the same line raises the ParseException naming the
block. -/
theorem subsection_keeps_current_attribute_witness :
    processLine ("Analysis") ("A") initPBState ("stray line") =
      Except.error PyError.unboundLocal
    ∧ processLine ("Analysis") ("A")
        ⟨[("Key", "v")], [⟨"Sub", []⟩], some 0, some Target.blockAttrs,
          some ("Key")⟩ ("more text") =
      Except.ok (setInTarget
        ⟨[("Key", "v")], [⟨"Sub", []⟩], some 0, some Target.blockAttrs,
          some ("Key")⟩ Target.blockAttrs ("Key")
        (attrGetD ([("Key", "v")]) ("Key") ("") ++
          (if attrGetD ([("Key", "v")]) ("Key") ("") ≠ "" then os_linesep
            else "") ++ pyStrip ("more text")))
    ∧ processLine ("Analysis") ("A")
        ⟨[("", "v")], [⟨"Sub", []⟩], some 0, some Target.blockAttrs,
          some ("")⟩ ("cont") =
      Except.error (PyError.parseExc
        ("In \"" ++ "Analysis" ++ ": " ++ "A"
          ++ "\", encounted unparseable line: " ++ "cont")) :=
  ⟨subsection_keeps_current_attribute.2.1 ("Analysis") ("A") initPBState
      ("stray line") (by decide) (by decide) rfl,
    subsection_keeps_current_attribute.2.2.1 ("Analysis") ("A")
      ⟨[("Key", "v")], [⟨"Sub", []⟩], some 0, some Target.blockAttrs,
        some ("Key")⟩ ("more text") Target.blockAttrs ("Key") (by decide)
      (by decide) rfl rfl (by decide) (by decide),
    subsection_keeps_current_attribute.2.2.2 ("Analysis") ("A")
      ⟨[("", "v")], [⟨"Sub", []⟩], some 0, some Target.blockAttrs,
        some ("")⟩ ("cont") Target.blockAttrs (by decide) (by decide) rfl
      (Or.inr rfl)⟩

/-- C3: the claim says a description containing `;` is captured whole as
the third part.  The source calls `split(';', 3)` — `maxsplit=3`, so up to
four pieces — although its own docstring says the line is split "into up
to three parts"; the intended call is `split(';', 2)`.  Hence a line whose
description contains a `;` yields four parts and raises, while a line with
exactly two separators parses as claimed. -/
theorem format_history_four_parts_bug :
    format_history ("- 1.0;2018-10-30;added feature;also docs") =
      Except.error (PyError.parseExc
        ("expected 3 version history parts, but got 4 (text: \"- 1.0;2018-10-30;added feature;also docs\")"))
    ∧ format_history ("- 1.0;2018-10-30;added analysis quality control") =
      Except.ok ⟨"1.0", "2018-10-30", "added analysis quality control"⟩ :=
  ⟨rfl, rfl⟩

/-- C4: the claim says validation fails iff a `Type: file list` subsection
name does not end with the literal `_files.txt`.  The source regex
`.*_files.txt$` has an unescaped dot, so a name such as `out_filesXtxt` —
which does not end with the literal suffix — is nevertheless accepted and
the block parses, contradicting the code's own error message ("expected
the file to end in \x27_files.txt\x27"). -/
theorem file_list_regex_dot_bug :
    endsWithL (("out_filesXtxt").data) (("_files.txt").data) = false
    ∧ parse_block ("# Analysis: A\n## out_filesXtxt\n- Type: file list") =
      Except.ok (Block.process ("Analysis") ("A") []
        [⟨"out_filesXtxt", [("Type", "file list")]⟩]) :=
  ⟨rfl, rfl⟩

/-- C5: the claim says no exception kind other than ParseError escapes, for
any input text.  An attribute line with no colon makes
`key, val = line.split(':', 1)` raise a ValueError (tuple unpacking),
although the docstring of `parse_sop` promises a ParseException when
errors are found.  The theorem evaluates the parse on such a document. -/
theorem missing_colon_value_error_bug :
    parse_sop_text ("# Title: T\n\n# Analysis: A\n- nocolon") =
      Except.error (PyError.valueError
        ("not enough values to unpack (expected 2, got 1)")) :=
  rfl

/-- C6: the claim says an empty or whitespace-only document fails with
ParseError.  The code indexes `blocks[0]` on the empty segment list and
raises an IndexError instead, although the docstring of `parse_sop`
promises a ParseException when errors are found. -/
theorem empty_document_index_error_bug :
    parse_sop_text ("") = Except.error PyError.indexError
    ∧ parse_sop_text ("  \n\n  ") = Except.error PyError.indexError :=
  ⟨rfl, rfl⟩

/-- C7: end-to-end extraction on the claim's document yields exactly one
record with the subsection's own Location and Format; the second conjunct
drops those two subsection attributes to show the defaults "." and ""
apply exactly when the attributes are absent (the block-level Location
does not leak into the record). -/
theorem end_to_end_extract :
    extract_filenames
        (some ("# Title: Test SOP\n\n# Analysis: Cell Segmentation\n- Location: ./data\n## out_files.txt\n- Type: file list\n- Location: ./results\n- Format: txt"))
        none demoFS =
      Except.ok [⟨"out_files.txt", "./results", "txt"⟩]
    ∧ extract_filenames
        (some ("# Title: Test SOP\n\n# Analysis: Cell Segmentation\n- Location: ./data\n## out_files.txt\n- Type: file list"))
        none demoFS =
      Except.ok [⟨"out_files.txt", ".", ""⟩] :=
  ⟨rfl, rfl⟩

/-- C8 counterexample: the claim says every body line of a FreeText block,
including whitespace-only lines, is retained.  `parse_block` filters
whitespace-only lines away before dispatching, so the single-space line of
this Introduction block is dropped: the parsed text is "first\nsecond",
not the full three-line join. -/
theorem freetext_drops_blank_lines_cex :
    parse_block ("# Introduction: A\nfirst\n \nsecond") =
      Except.ok (Block.freeText ("Introduction") ("first\nsecond"))
    ∧ ("first\nsecond" : String) ≠ ("first\n \nsecond" : String) :=
  ⟨rfl, by decide⟩

/-- C8 (amended): for a FreeText block the header line is consumed and the
returned text is the block's *non-blank* body lines, in order, joined with
the platform line separator; whitespace-only body lines are dropped rather
than retained. -/
theorem freetext_joins_nonblank_lines (ls : List String)
    (h : ∀ l ∈ ls, ∀ c ∈ l.data, ¬(c = '\n') ∧ ¬(c = '\r')) :
    parse_block (pyJoin ("\n") (("# Introduction: A") :: ls)) =
      Except.ok (Block.freeText ("Introduction")
        (pyJoin os_linesep (ls.filter (fun x => pyStrip x != "")))) := by
  unfold parse_block
  rw [splitNlStr_join ("# Introduction: A") ls (by decide) h]
  rfl

/-- C8 witness: the amended statement at the counterexample's body lines. -/
theorem freetext_joins_nonblank_lines_witness :
    parse_block (pyJoin ("\n") (("# Introduction: A") :: ["first", " ", "second"])) =
      Except.ok (Block.freeText ("Introduction")
        (pyJoin os_linesep ((["first", " ", "second"] : List String).filter
          (fun x => pyStrip x != "")))) :=
  freetext_joins_nonblank_lines ["first", " ", "second"] (by decide)

/-- C9: a body line beginning with `## Not uploaded:` is a complete no-op
of the process-block loop: the state — subsection list, block attributes,
current subsection, current target and current attribute — is returned
unchanged, so such a subsection never reaches the parsed structure or the
extracted file references, and later attribute lines attach to whatever
target was current before it. -/
theorem not_uploaded_line_noop (bt bn : String) (st : PBState) (line : String)
    (h : strStarts line ("## Not uploaded:") = true) :
    processLine bt bn st line = Except.ok st := by
  have h3 : strStarts line ("## ") = true :=
    startsWithL_trans (("## ").data) (("## Not uploaded:").data) line.data
      (by decide) h
  have hd : strStarts line ("- ") = false := by
    have hh := startsWithL_first line.data (("# ").data) '#' h3
    cases hdq : strStarts line ("- ") with
    | false => rfl
    | true =>
      have h2 := startsWithL_first line.data ((" ").data) '-' hdq
      rw [hh] at h2
      simp at h2
  simp [processLine, hd, h3, h]

/-- C9 witness: a concrete `## Not uploaded:` line on the initial state. -/
theorem not_uploaded_line_noop_witness :
    processLine ("Analysis") ("A") initPBState ("## Not uploaded: x_files.txt") =
      Except.ok initPBState :=
  not_uploaded_line_noop ("Analysis") ("A") initPBState
    ("## Not uploaded: x_files.txt") (by decide)

/-- C10: each preamble line is split on its first colon, and *both*
resulting pieces are stripped of leading and trailing `'#'` and `' '`
characters only: the first conjunct computes the two pieces for any line
`k:v` with colon-free `k`, and the second shows the strip removes nothing
but `'#'` and `' '` characters, and only from the two ends — so no other
whitespace, such as a tab, is ever trimmed. -/
theorem preamble_strip_hash_space :
    (∀ k v : String, (∀ c ∈ k.data, c ≠ ':') →
      preambleBits (k ++ (":") ++ v) = [stripHashSpace k, stripHashSpace v])
    ∧ (∀ s : String, ∃ a b : List Char,
        s.data = a ++ (stripHashSpace s).data ++ b ∧
        (∀ c ∈ a, c = '#' ∨ c = ' ') ∧ (∀ c ∈ b, c = '#' ∨ c = ' ')) := by
  constructor
  · intro k v hk
    unfold preambleBits pySplit1
    have hdata : (k ++ (":") ++ v).data = k.data ++ ':' :: v.data := by
      rw [string_data_append, string_data_append, List.append_assoc]
      rfl
    rw [hdata, splitFirstList_append ':' k.data v.data hk]
    simp [string_mk_data]
  · intro s
    obtain ⟨a, b, hab, ha, hb⟩ := stripList_decomp isHashSpace s.data
    refine ⟨a, b, hab, ?_, ?_⟩
    · intro c hc
      exact (isHashSpace_iff c).mp (ha c hc)
    · intro c hc
      exact (isHashSpace_iff c).mp (hb c hc)

/-- C10 witness: a concrete preamble line with a `'#'`-decorated, tabbed
value: the trailing tab survives the strip. -/
theorem preamble_strip_hash_space_witness :
    (∀ c ∈ ("# Title" : String).data, c ≠ ':')
    ∧ preambleBits (("# Title") ++ (":") ++ (" #Test SOP#\t")) =
      [stripHashSpace ("# Title"), stripHashSpace (" #Test SOP#\t")] :=
  ⟨by decide,
    preamble_strip_hash_space.1 ("# Title") (" #Test SOP#\t") (by decide)⟩

end SOP
